import Mathlib

/-!
# Verification of the outbound request dispatcher of `shop-client`

This file gives a shallow embedding of the request-dispatcher subsystem of
the `shop-client` library and proves the specified properties about it.

The dispatcher proper lives in `src/utils/rate-limit.ts`, which is re-exported
by `src/index.ts` (`export { configureRateLimit } from "./utils/rate-limit"`)
and consumed everywhere through `rateLimitedFetch`; that module's source file
is not part of the source snapshot, so its components (Policy Store, Class
Limiter, Concurrency Gate, Attempt Executor, Retry Coordinator) are modelled
from the specification text.  The Effect facade (`src/effect.ts`, function
`withPolicy`) and the callers in `src/client/get-info.ts` (`getSeoForUrl`,
`getInfoForShop`) are present in the snapshot and are embedded from their
source directly.
-/

set_option autoImplicit false

/-! ## Class Limiter (sliding window) -/

/-- Modelled from the spec: the Class Limiter's pruning step of
`src/utils/rate-limit.ts` (module absent from the snapshot) — "prune
timestamps older than `intervalMs` from that class's record".  A timestamp
`t` is still inside the trailing window at instant `now` iff
`now - t < intervalMs`, i.e. `now < t + intervalMs`. -/
def pruneWindow (intervalMs now : Nat) (ts : List Nat) : List Nat :=
  ts.filter (fun t => now < t + intervalMs)

/-- Modelled from the spec: the Class Limiter admission loop of
`src/utils/rate-limit.ts` (module absent from the snapshot) — "on each
admission attempt, prune timestamps older than `intervalMs` from that class's
record, then if the remaining count is below the configured maximum, append
the current instant and resolve immediately; otherwise compute the delay until
the oldest timestamp falls outside the window, wait that long, and retry the
check".  Returns the admission instant together with the class record after
admission.  Timestamps are appended in admission order, so the head of the
record is the oldest entry.  (The `[]` fallback of the saturated branch is
unreachable whenever `1 ≤ maxReq`, since an empty pruned record is always
below the maximum.) -/
def admitLoop (maxReq intervalMs : Nat) (ts : List Nat) (now : Nat) : Nat × List Nat :=
  let pruned := pruneWindow intervalMs now ts
  if pruned.length < maxReq then
    (now, pruned ++ [now])
  else
    match h : pruned with
    | [] => (now, [now])
    | oldest :: rest => admitLoop maxReq intervalMs (oldest :: rest) (oldest + intervalMs)
termination_by (pruneWindow intervalMs now ts).length
decreasing_by
  have hp : pruneWindow intervalMs now ts = oldest :: rest := h
  rw [hp]
  simp only [pruneWindow, List.filter_cons]
  rw [if_neg (by simp)]
  exact Nat.lt_succ_of_le (List.length_filter_le _ _)

/-- Modelled from the spec: the per-class state map of the Class Limiter —
"one sliding-window counter per logical request class"; admission for class
`c` reads and writes only the record stored under `c`. -/
def admitClass (maxReq intervalMs : Nat) (state : String → List Nat) (c : String)
    (now : Nat) : Nat × (String → List Nat) :=
  let r := admitLoop maxReq intervalMs (state c) now
  (r.1, fun c2 => if c2 = c then r.2 else state c2)

/-! ## Concurrency Gate -/

/-- Modelled from the spec: the Concurrency Gate state of
`src/utils/rate-limit.ts` (module absent from the snapshot) —
`{ capacity, inUse, waiters }` with FIFO waiters. -/
structure GateState where
  capacity : Nat
  inUse : Nat
  waiters : List Nat
deriving DecidableEq, Repr

/-- Modelled from the spec: gate acquisition — "when `inUse < capacity`,
acquisition succeeds synchronously (inUse increments); otherwise the caller is
queued". -/
def gateAcquire (g : GateState) (id : Nat) : GateState :=
  if g.inUse < g.capacity then { g with inUse := g.inUse + 1 }
  else { g with waiters := g.waiters ++ [id] }

/-- Modelled from the spec: gate release — the freed slot is handed to the
first waiter in arrival order if any (so `inUse` is unchanged), and only
otherwise does `inUse` decrement. -/
def gateRelease (g : GateState) : GateState :=
  match g.waiters with
  | _ :: rest => { g with waiters := rest }
  | [] => { g with inUse := g.inUse - 1 }

/-- An environment action on the Concurrency Gate. -/
inductive GateOp where
  | acquire (id : Nat)
  | release
deriving DecidableEq, Repr

/-- Run a sequence of gate operations from a state; the states produced along
the way are exactly the reachable states of the Concurrency Gate. -/
def gateExec (g : GateState) : List GateOp → GateState
  | [] => g
  | op :: ops =>
    gateExec (match op with
              | GateOp.acquire id => gateAcquire g id
              | GateOp.release => gateRelease g) ops

/-- The initial Concurrency Gate state for a configured `maxConcurrency`. -/
def gateInit (capacity : Nat) : GateState :=
  { capacity := capacity, inUse := 0, waiters := [] }

/-! ## Attempt Executor and Retry Coordinator -/

/-- The HTTP-response-shaped result handed back by an attempt; the dispatcher
only ever inspects the status code. -/
structure HttpResponse where
  status : Nat
deriving DecidableEq, Repr

/-- The retry policy of a Request Descriptor:
`{ maxRetries, baseDelayMs, retryOnStatuses }`. -/
structure RetryPolicy where
  maxRetries : Nat
  baseDelayMs : Nat
  retryOnStatuses : List Nat
deriving DecidableEq, Repr

/-- Modelled from the spec: the outcome of one attempt as classified by the
Attempt Executor, extended with the two early-exit events of the dispatch
pipeline (caller cancellation mid-attempt, unexpected error). -/
inductive AttemptOutcome where
  | success (resp : HttpResponse)
  | retryableFailure (reason : String)
  | fatalFailure (reason : String)
  | cancelledDuring
  | unexpectedError (reason : String)
deriving DecidableEq, Repr

/-- Modelled from the spec: what one network call produced before
classification — a response, a network-level error, or the attempt timer
firing first. -/
inductive NetOutcome where
  | response (resp : HttpResponse)
  | networkError (reason : String)
  | timedOut
deriving DecidableEq, Repr

/-- Modelled from the spec: the Attempt Executor's classification of
`src/utils/rate-limit.ts` (module absent from the snapshot) — timeout and
network errors are retryable, statuses in the retry set are retryable, and
any other HTTP response is `Success(response)`. -/
def classifyAttempt (retryOn : List Nat) (n : NetOutcome) : AttemptOutcome :=
  match n with
  | NetOutcome.timedOut => AttemptOutcome.retryableFailure "timeout"
  | NetOutcome.networkError reason => AttemptOutcome.retryableFailure reason
  | NetOutcome.response resp =>
    if resp.status ∈ retryOn then
      AttemptOutcome.retryableFailure ("status " ++ toString resp.status)
    else
      AttemptOutcome.success resp

/-- The final result a dispatch hands to its caller. -/
inductive DispatchResult where
  | ok (resp : HttpResponse)
  | exhausted (attempts : Nat) (lastReason : String)
  | cancelled
  | errored (reason : String)
deriving DecidableEq, Repr

/-- Modelled from the spec: the Retry Coordinator loop of
`src/utils/rate-limit.ts` (module absent from the snapshot).  `outcomes i`
is the classified outcome of attempt index `i`; `cancelBefore i` says whether
the caller's cancellation signal fires while waiting for admission before
attempt `i`.  `rem` is the remaining retry budget.  Returns the dispatch
result together with the number of attempts performed.  A `Success` resolves
immediately, a `FatalFailure` or an empty budget surfaces
`DispatchExhaustedError{attempts, lastReason}`, and a retryable failure with
budget left loops with `attemptIndex + 1`. -/
def dispatchFrom (outcomes : Nat → AttemptOutcome) (cancelBefore : Nat → Bool) :
    Nat → Nat → DispatchResult × Nat
  | idx, rem =>
    if cancelBefore idx then (DispatchResult.cancelled, idx)
    else
      match outcomes idx with
      | AttemptOutcome.success resp => (DispatchResult.ok resp, idx + 1)
      | AttemptOutcome.fatalFailure reason => (DispatchResult.exhausted (idx + 1) reason, idx + 1)
      | AttemptOutcome.cancelledDuring => (DispatchResult.cancelled, idx + 1)
      | AttemptOutcome.unexpectedError reason => (DispatchResult.errored reason, idx + 1)
      | AttemptOutcome.retryableFailure reason =>
        match rem with
        | 0 => (DispatchResult.exhausted (idx + 1) reason, idx + 1)
        | rem' + 1 => dispatchFrom outcomes cancelBefore (idx + 1) rem'

/-- Modelled from the spec: `dispatch(descriptor)` — run the Retry
Coordinator from attempt index 0 with the descriptor's retry budget. -/
def dispatch (p : RetryPolicy) (outcomes : Nat → AttemptOutcome)
    (cancelBefore : Nat → Bool) : DispatchResult × Nat :=
  dispatchFrom outcomes cancelBefore 0 p.maxRetries

/-- A Concurrency Gate event attributed to one dispatch: the grant of a slot
to it, or its release of that slot. -/
inductive GateEv where
  | acq
  | rel
deriving DecidableEq, Repr

/-- The change a single gate event makes to the caller's held-slot count. -/
def evDelta : GateEv → Int
  | GateEv.acq => 1
  | GateEv.rel => -1

/-- Net number of slots held after a sequence of gate events. -/
def heldAfter (evs : List GateEv) : Int :=
  (evs.map evDelta).sum

/-- Modelled from the spec: the gate events one dispatch produces.  Every
attempt acquires a slot, executes, and releases the slot immediately on each
outcome (success, retryable failure, fatal failure, cancellation mid-attempt,
unexpected error) — in particular the slot is released before the backoff
sleep.  A cancellation that fires while still waiting for admission produces
no gate events at all. -/
def dispatchTrace (outcomes : Nat → AttemptOutcome) (cancelBefore : Nat → Bool) :
    Nat → Nat → List GateEv
  | idx, rem =>
    if cancelBefore idx then []
    else
      GateEv.acq :: GateEv.rel ::
        (match outcomes idx with
         | AttemptOutcome.retryableFailure _ =>
           (match rem with
            | 0 => []
            | rem' + 1 => dispatchTrace outcomes cancelBefore (idx + 1) rem')
         | _ => [])

/-! ## Backoff with jitter -/

/-- Modelled from the spec: the pre-jitter backoff delay of the Retry
Coordinator — "delay computed as `baseDelayMs * 2^attemptIndex`". -/
def preJitterDelay (baseDelayMs i : Nat) : Nat :=
  baseDelayMs * 2 ^ i

/-- Modelled from the spec: the jittered backoff delay — the pre-jitter delay
"jittered by scaling with a uniformly random factor in `[0.5, 1.5]`"; the
factor drawn by the random source is passed in explicitly. -/
def jitteredDelay (baseDelayMs i : Nat) (jitter : ℚ) : ℚ :=
  (preJitterDelay baseDelayMs i : ℚ) * jitter

/-! ## Policy Store -/

/-- Modelled from the spec: the policy tuple handed to `configureRateLimit`
(re-exported at `src/index.ts:851`; module absent from the snapshot).  Fields
are modelled as rationals so that non-integral inputs are representable and
the positive-integer validation is meaningful. -/
structure PolicyInput where
  maxRequestsPerInterval : ℚ
  intervalMs : ℚ
  maxConcurrency : ℚ
deriving DecidableEq, Repr

/-- A number passes the Policy Store's field validation iff it is a positive
integer. -/
def isPositiveInteger (q : ℚ) : Bool :=
  decide (0 < q) && decide (q.den = 1)

/-- Modelled from the spec: "validates all three fields are positive
integers". -/
def validPolicy (p : PolicyInput) : Bool :=
  isPositiveInteger p.maxRequestsPerInterval
    && isPositiveInteger p.intervalMs
    && isPositiveInteger p.maxConcurrency

/-- Modelled from the spec: `configure(newPolicy)` — fails with
`InvalidPolicyError` when validation fails and otherwise atomically swaps in
the whole new tuple. -/
def configureRateLimit (newPolicy : PolicyInput) : Except String PolicyInput :=
  if validPolicy newPolicy then Except.ok newPolicy
  else Except.error "InvalidPolicyError"

/-- The active policy after a `configure` call: the new tuple on success, the
unchanged previous tuple on failure ("rejected before mutating state");
`current()` returns this snapshot. -/
def activeAfterConfigure (active newPolicy : PolicyInput) : PolicyInput :=
  match configureRateLimit newPolicy with
  | Except.ok p => p
  | Except.error _ => active

/-! ## Effect facade (`src/effect.ts`) -/

/-- Embedded from `src/effect.ts:69-72`: the optional retry override of a
call, `{ maxRetries?, baseDelayMs? }`.  Absent fields are `none`; present
fields are arbitrary (possibly negative) integers. -/
structure RetryCallOptions where
  maxRetries : Option Int
  baseDelayMs : Option Int
deriving DecidableEq, Repr

/-- Embedded from `src/effect.ts:67-73` (`ShopClientCallOptions`): optional
`timeoutMs` (an arbitrary number, modelled as a rational so that zero,
negative and fractional values are representable) and an optional retry
override. -/
structure ShopClientCallOptions where
  timeoutMs : Option ℚ
  retry : Option RetryCallOptions
deriving DecidableEq, Repr

/-- The shape of the effect value built by `withPolicy`: the caller-supplied
effect (`base`), possibly wrapped in `Effect.timeoutFail` (which fails with a
`ShopClientOperationError` whose operation is the stored string when the
deadline fires first), possibly wrapped in `Effect.retry` of an exponential
jittered schedule bounded by `maxRetries` recurrences. -/
inductive Eff where
  | base
  | timeoutFail (duration : ℚ) (operation : String) (inner : Eff)
  | retry (baseDelayMs : Int) (maxRetries : Nat) (inner : Eff)
deriving DecidableEq, Repr

/-- Embedded from `src/effect.ts:80-83`: `timeoutMs` is kept only when it is
a number strictly greater than 0, and is `undefined` otherwise. -/
def policyTimeoutMs (options : Option ShopClientCallOptions) : Option ℚ :=
  match options.bind (fun o => o.timeoutMs) with
  | some t => if 0 < t then some t else none
  | none => none

/-- Embedded from `src/effect.ts:99`:
`Math.max(0, options?.retry?.maxRetries ?? 0)`. -/
def policyMaxRetries (options : Option ShopClientCallOptions) : Nat :=
  (max 0 (((options.bind fun o => o.retry).bind fun r => r.maxRetries).getD 0)).toNat

/-- Embedded from `src/effect.ts:102`:
`Math.max(0, options?.retry?.baseDelayMs ?? 200)`. -/
def policyBaseDelayMs (options : Option ShopClientCallOptions) : Int :=
  max 0 (((options.bind fun o => o.retry).bind fun r => r.baseDelayMs).getD 200)

/-- Embedded from `src/effect.ts:75-108` (`withPolicy`): apply
`Effect.timeoutFail` (operation suffixed with `".timeout"`) only when a
strictly positive `timeoutMs` was supplied, then, when the retry budget is
positive, wrap in `Effect.retry` of the jittered exponential schedule
intersected with `Schedule.recurs(maxRetries)`. -/
def withPolicy (operation : String) (options : Option ShopClientCallOptions) : Eff :=
  let withTimeout :=
    match policyTimeoutMs options with
    | some t => Eff.timeoutFail t (operation ++ ".timeout") Eff.base
    | none => Eff.base
  if policyMaxRetries options = 0 then withTimeout
  else Eff.retry (policyBaseDelayMs options) (policyMaxRetries options) withTimeout

/-- Whether the built effect contains a deadline (`Effect.timeoutFail`)
anywhere. -/
def hasTimeoutNode : Eff → Bool
  | Eff.base => false
  | Eff.timeoutFail _ _ _ => true
  | Eff.retry _ _ inner => hasTimeoutNode inner

/-- The result of running the built effect once: the base effect's value, or
a `ShopClientOperationError` identified by its `operation` string. -/
inductive RunRes where
  | ok (v : Nat)
  | err (operation : String)
deriving DecidableEq, Repr

/-- One execution of a (retry-free) effect at attempt index `i`: `oracle i`
is what the caller-supplied base effect does on that attempt and `dur i` how
long it runs; a `timeoutFail` wrapper fails with its stored operation string
when the attempt's duration reaches the deadline, and otherwise behaves as
the wrapped effect. -/
def runOnce (oracle : Nat → RunRes) (dur : Nat → ℚ) : Eff → Nat → RunRes
  | Eff.base, i => oracle i
  | Eff.timeoutFail t op inner, i =>
    if t ≤ dur i then RunRes.err op else runOnce oracle dur inner i
  | Eff.retry _ _ inner, i => runOnce oracle dur inner i

/-- `Effect.retry` semantics: re-execute the inner effect on failure while
recurrences remain, returning the last result. -/
def runRetry (oracle : Nat → RunRes) (dur : Nat → ℚ) (inner : Eff) :
    Nat → Nat → RunRes
  | i, 0 => runOnce oracle dur inner i
  | i, n + 1 =>
    match runOnce oracle dur inner i with
    | RunRes.ok v => RunRes.ok v
    | RunRes.err _ => runRetry oracle dur inner (i + 1) n

/-- Run a built effect from attempt index 0. -/
def runEff (oracle : Nat → RunRes) (dur : Nat → ℚ) : Eff → RunRes
  | Eff.retry _ n inner => runRetry oracle dur inner 0 n
  | e => runOnce oracle dur e 0

/-! ## Callers (`src/client/get-info.ts`) -/

/-- The HTTP-response value returned by `rateLimitedFetch` as the callers in
`src/client/get-info.ts` see it: the `ok` flag, the status code, the final
URL (possibly empty) and the body text. -/
structure FetchResponse where
  ok : Bool
  status : Nat
  url : String
  body : String
deriving DecidableEq, Repr

/-- Embedded from `src/client/get-info.ts:169` and `:208`: the message of the
error thrown on a non-ok response, `` `HTTP error! status: ${response.status}` ``. -/
def httpErrorMsg (status : Nat) : String :=
  "HTTP error! status: " ++ toString status

/-- Embedded from `src/client/get-info.ts:159-173` (`getSeoForUrl`): throw the
status-naming error when `response.ok` is false, otherwise parse the body with
`parseSeoFromHtml(html, response.url || args.url)`.  The HTML parsing itself
is outside the dispatcher contract and is abstracted as the function
`parseSeoFromHtml` passed in. -/
def getSeoForUrl (parseSeoFromHtml : String → String → String) (argsUrl : String)
    (resp : FetchResponse) : Except String String :=
  if resp.ok = false then Except.error (httpErrorMsg resp.status)
  else Except.ok (parseSeoFromHtml resp.body (if resp.url = "" then argsUrl else resp.url))

/-- Substring test used to embed `html.includes(...)`. -/
def strContains (s pat : String) : Bool :=
  decide (pat.data <:+: s.data)

/-- Embedded from `src/client/get-info.ts:222-228`: the six
`html.includes(...)` probes deciding whether the page is a Shopify store. -/
def isShopifyStoreHtml (html : String) : Bool :=
  strContains html "cdn.shopify.com"
    || strContains html "myshopify.com"
    || strContains html "shopify-digital-wallet"
    || strContains html "Shopify.shop"
    || strContains html "Shopify.currency"
    || strContains html "shopify-section"

/-- JavaScript falsiness of the optional `shopifyWalletId` string
(`undefined` or the empty string). -/
def optFalsy : Option String → Bool
  | none => true
  | some s => s = ""

/-- Embedded from `src/client/get-info.ts:191-234` (`getInfoForShop`, its
throwing part): throw the status-naming error when `response.ok` is false;
otherwise throw the fixed invalid-store message when the page does not look
like a Shopify store or the wallet id is falsy; otherwise continue with pure
extraction of the body (abstracted as returning the body).  The wallet id is
the result of the `shopify-digital-wallet` meta-tag regex at `:220`,
abstracted as a parameter. -/
def getInfoForShop (resp : FetchResponse) (shopifyWalletId : Option String) :
    Except String String :=
  if resp.ok = false then Except.error (httpErrorMsg resp.status)
  else if !isShopifyStoreHtml resp.body || optFalsy shopifyWalletId then
    Except.error "The provided URL does not appear to be a valid Shopify store."
  else Except.ok resp.body

/-! ## Theorems: Class Limiter -/

/-- Unfolding lemma for `admitLoop`: when the pruned record is below the
maximum, the caller is admitted immediately at the current instant and the
instant is appended to the pruned record. -/
theorem admitLoop_grant {maxReq intervalMs : Nat} {ts : List Nat} {now : Nat}
    (h : (pruneWindow intervalMs now ts).length < maxReq) :
    admitLoop maxReq intervalMs ts now = (now, pruneWindow intervalMs now ts ++ [now]) := by
  rw [admitLoop.eq_def]
  simp only [h, if_pos]

/-- Unfolding lemma for `admitLoop`: when the pruned record is at (or above)
the maximum, the loop waits until the instant the oldest pruned timestamp
falls outside the window and re-runs the check there. -/
theorem admitLoop_wait {maxReq intervalMs : Nat} {ts : List Nat} {now : Nat}
    {oldest : Nat} {rest : List Nat}
    (h : ¬ (pruneWindow intervalMs now ts).length < maxReq)
    (hp : pruneWindow intervalMs now ts = oldest :: rest) :
    admitLoop maxReq intervalMs ts now
      = admitLoop maxReq intervalMs (oldest :: rest) (oldest + intervalMs) := by
  rw [admitLoop.eq_def]
  simp only [hp] at h ⊢
  simp only [if_neg h]
  split
  · rename_i heq
    rw [hp] at heq
    cases heq
  · rename_i o r heq
    rw [hp] at heq
    injection heq with h1 h2
    subst h1
    subst h2
    rfl

/-- **C1** — Sliding-window admission is correct: pruning keeps exactly the
timestamps still inside the trailing `intervalMs` window; when the pruned
count is below the maximum the caller is admitted immediately at the current
instant (appended to the record); otherwise the loop waits exactly until the
instant the oldest timestamp leaves the window (`oldest + intervalMs`) and
re-checks there.  In particular, with `maxRequestsPerInterval = 2` and
`intervalMs = 1000`, three back-to-back requests at instant `t` are admitted
at `t`, `t` and `t + 1000`: the first two immediately, the third delayed to
exactly the instant the oldest of the first two leaves the 1000 ms window. -/
theorem C1_sliding_window_admission (maxReq intervalMs now t : Nat) (ts : List Nat) :
    (∀ x, x ∈ pruneWindow intervalMs now ts ↔ x ∈ ts ∧ now < x + intervalMs)
    ∧ ((pruneWindow intervalMs now ts).length < maxReq →
        admitLoop maxReq intervalMs ts now = (now, pruneWindow intervalMs now ts ++ [now]))
    ∧ (∀ oldest rest,
        ¬ (pruneWindow intervalMs now ts).length < maxReq →
        pruneWindow intervalMs now ts = oldest :: rest →
        admitLoop maxReq intervalMs ts now
          = admitLoop maxReq intervalMs (oldest :: rest) (oldest + intervalMs))
    ∧ admitLoop 2 1000 [] t = (t, [t])
    ∧ admitLoop 2 1000 [t] t = (t, [t, t])
    ∧ admitLoop 2 1000 [t, t] t = (t + 1000, [t + 1000]) := by
  refine ⟨?_, ?_, ?_, ?_, ?_, ?_⟩
  · intro x
    simp [pruneWindow, List.mem_filter]
  · exact admitLoop_grant
  · intro oldest rest h hp
    exact admitLoop_wait h hp
  · rw [admitLoop_grant (by simp [pruneWindow])]
    simp [pruneWindow]
  · rw [admitLoop_grant (by simp [pruneWindow])]
    simp [pruneWindow]
  · rw [@admitLoop_wait 2 1000 [t, t] t t [t] (by simp [pruneWindow]) (by simp [pruneWindow])]
    rw [admitLoop_grant (by simp [pruneWindow])]
    simp [pruneWindow]

/-- Witness for C1 at concrete inputs: immediate admission below the limit,
and the saturated wait step, both evaluated concretely. -/
theorem C1_sliding_window_admission_witness :
    admitLoop 2 1000 [5] 5 = (5, pruneWindow 1000 5 [5] ++ [5])
    ∧ admitLoop 2 1000 [9, 9] 9 = admitLoop 2 1000 [9, 9] (9 + 1000)
    ∧ admitLoop 2 1000 [7, 7] 7 = (7 + 1000, [7 + 1000]) :=
  ⟨(C1_sliding_window_admission 2 1000 5 0 [5]).2.1 (by decide),
   (C1_sliding_window_admission 2 1000 9 0 [9, 9]).2.2.1 9 [9] (by decide) (by decide),
   (C1_sliding_window_admission 2 1000 0 7 []).2.2.2.2.2⟩

/-- **C6** — Class isolation (noninterference): admission in class `A` leaves
class `B`'s record untouched; the admission instant of a `B` request after an
arbitrary `A` admission equals its instant without it; and the admission
instant of `B` depends only on `B`'s own record, so any burst confined to
other classes (any two global states agreeing on `B`) yields identical `B`
admission instants. -/
theorem C6_class_isolation (maxReq intervalMs : Nat) (A B : String) (hAB : A ≠ B)
    (state state2 : String → List Nat) (hB : state B = state2 B) (nowA nowB : Nat) :
    (admitClass maxReq intervalMs state A nowA).2 B = state B
    ∧ (admitClass maxReq intervalMs
         (admitClass maxReq intervalMs state A nowA).2 B nowB).1
        = (admitClass maxReq intervalMs state B nowB).1
    ∧ (admitClass maxReq intervalMs state B nowB).1
        = (admitClass maxReq intervalMs state2 B nowB).1 := by
  have hBA : B ≠ A := fun h => hAB h.symm
  refine ⟨?_, ?_, ?_⟩
  · simp [admitClass, if_neg hBA]
  · simp [admitClass, if_neg hBA]
  · simp [admitClass, hB]

/-- Witness for C6 at two concrete distinct classes: a saturated
`"products:list"` record does not change the `"collections:single"`
admission instant. -/
theorem C6_class_isolation_witness :
    (admitClass 2 1000 (fun c => if c = "products:list" then [0, 0] else []) "products:list" 0).2
        "collections:single" = (fun c => if c = "products:list" then [0, 0] else ([] : List Nat))
        "collections:single"
    ∧ (admitClass 2 1000
         (admitClass 2 1000 (fun c => if c = "products:list" then [0, 0] else [])
           "products:list" 0).2 "collections:single" 0).1
        = (admitClass 2 1000 (fun c => if c = "products:list" then [0, 0] else [])
            "collections:single" 0).1
    ∧ (admitClass 2 1000 (fun c => if c = "products:list" then [0, 0] else [])
         "collections:single" 0).1
        = (admitClass 2 1000 (fun _ => []) "collections:single" 0).1 :=
  C6_class_isolation 2 1000 "products:list" "collections:single" (by decide)
    (fun c => if c = "products:list" then [0, 0] else []) (fun _ => []) (by decide) 0 0

/-! ## Theorems: Concurrency Gate -/

/-- Acquisition preserves the gate invariant and never changes capacity. -/
theorem gateAcquire_inv (g : GateState) (id : Nat) (h : g.inUse ≤ g.capacity) :
    (gateAcquire g id).inUse ≤ (gateAcquire g id).capacity
    ∧ (gateAcquire g id).capacity = g.capacity := by
  unfold gateAcquire
  split
  · rename_i hlt
    exact ⟨hlt, rfl⟩
  · exact ⟨h, rfl⟩

/-- Release preserves the gate invariant and never changes capacity. -/
theorem gateRelease_inv (g : GateState) (h : g.inUse ≤ g.capacity) :
    (gateRelease g).inUse ≤ (gateRelease g).capacity
    ∧ (gateRelease g).capacity = g.capacity := by
  unfold gateRelease
  split
  · exact ⟨h, rfl⟩
  · exact ⟨Nat.le_trans (Nat.sub_le _ _) h, rfl⟩

/-- The gate invariant holds along every execution. -/
theorem gateExec_inv (ops : List GateOp) : ∀ g : GateState, g.inUse ≤ g.capacity →
    (gateExec g ops).inUse ≤ (gateExec g ops).capacity
    ∧ (gateExec g ops).capacity = g.capacity := by
  induction ops with
  | nil => exact fun g h => ⟨h, rfl⟩
  | cons op ops ih =>
    intro g h
    cases op with
    | acquire id =>
      have hs := gateAcquire_inv g id h
      have := ih (gateAcquire g id) hs.1
      exact ⟨this.1, by rw [gateExec]; rw [this.2, hs.2]⟩
    | release =>
      have hs := gateRelease_inv g h
      have := ih (gateRelease g) hs.1
      exact ⟨this.1, by rw [gateExec]; rw [this.2, hs.2]⟩

/-- **C2** — Global concurrency cap invariant: every state of the Concurrency
Gate reachable from the initial state (by any sequence of acquisitions and
releases, i.e. any number and class mix of concurrently dispatched requests)
satisfies `0 ≤ inUse ≤ capacity`, and the capacity stays the configured
`maxConcurrency = N`; so at no instant do more than `N` attempts hold an
execution slot. -/
theorem C2_concurrency_cap (N : Nat) (ops : List GateOp) :
    0 ≤ (gateExec (gateInit N) ops).inUse
    ∧ (gateExec (gateInit N) ops).inUse ≤ (gateExec (gateInit N) ops).capacity
    ∧ (gateExec (gateInit N) ops).capacity = N := by
  have h := gateExec_inv ops (gateInit N) (Nat.zero_le _)
  exact ⟨Nat.zero_le _, h.1, h.2⟩

/-! ## Theorems: Retry Coordinator and Dispatcher -/

/-- When every attempt fails retryably and no cancellation fires, the
coordinator spends its whole budget and surfaces `Exhausted` carrying the
total attempt count and the last attempt's reason. -/
theorem dispatchFrom_all_retryable (outcomes : Nat → AttemptOutcome)
    (cancelBefore : Nat → Bool) (reasons : Nat → String)
    (hout : ∀ i, outcomes i = AttemptOutcome.retryableFailure (reasons i))
    (hnc : ∀ i, cancelBefore i = false) :
    ∀ rem idx, dispatchFrom outcomes cancelBefore idx rem
      = (DispatchResult.exhausted (idx + rem + 1) (reasons (idx + rem)), idx + rem + 1) := by
  intro rem
  induction rem with
  | zero =>
    intro idx
    rw [dispatchFrom]
    simp [hnc idx, hout idx]
  | succ rem' ih =>
    intro idx
    rw [dispatchFrom]
    simp only [hnc idx, hout idx, Bool.false_eq_true, if_false]
    rw [ih (idx + 1)]
    have h1 : idx + 1 + rem' = idx + (rem' + 1) := by omega
    rw [h1]

/-- **C3** — Retry exhaustion: with `maxRetries = 2`, a descriptor whose
every attempt ends in a retryable failure performs exactly 3 attempts
(1 initial + 2 retries) and fails with `DispatchExhaustedError` carrying the
attempt count 3 and the last attempt's failure reason; it never resolves with
a response after exhaustion. -/
theorem C3_retry_exhaustion (p : RetryPolicy) (outcomes : Nat → AttemptOutcome)
    (cancelBefore : Nat → Bool) (reasons : Nat → String)
    (hmax : p.maxRetries = 2)
    (hout : ∀ i, outcomes i = AttemptOutcome.retryableFailure (reasons i))
    (hnc : ∀ i, cancelBefore i = false) :
    dispatch p outcomes cancelBefore = (DispatchResult.exhausted 3 (reasons 2), 3)
    ∧ ∀ resp n, dispatch p outcomes cancelBefore ≠ (DispatchResult.ok resp, n) := by
  have hmain : dispatch p outcomes cancelBefore
      = (DispatchResult.exhausted 3 (reasons 2), 3) := by
    unfold dispatch
    rw [hmax, dispatchFrom_all_retryable outcomes cancelBefore reasons hout hnc 2 0]
  refine ⟨hmain, ?_⟩
  intro resp n h
  rw [hmain] at h
  exact DispatchResult.noConfusion (congrArg Prod.fst h)

/-- Witness for C3: a concrete descriptor with `maxRetries = 2` whose every
attempt times out retryably is exhausted after exactly 3 attempts. -/
theorem C3_retry_exhaustion_witness :
    dispatch ⟨2, 300, [429, 500, 502, 503, 504]⟩
        (fun _ => AttemptOutcome.retryableFailure "timeout") (fun _ => false)
      = (DispatchResult.exhausted 3 "timeout", 3) :=
  (C3_retry_exhaustion ⟨2, 300, [429, 500, 502, 503, 504]⟩
    (fun _ => AttemptOutcome.retryableFailure "timeout") (fun _ => false)
    (fun _ => "timeout") rfl (fun _ => rfl) (fun _ => rfl)).1

/-- **C5** — Non-retry-set status passthrough: a response whose status is not
in `retryOnStatuses` is classified `Success(response)` by the Attempt
Executor, and the dispatch resolves with exactly that response on the first
attempt (attempt count 1, zero retries) — it is never surfaced as a
dispatcher-level error. -/
theorem C5_nonretry_status_passthrough (p : RetryPolicy) (net : Nat → NetOutcome)
    (cancelBefore : Nat → Bool) (resp : HttpResponse)
    (h0 : net 0 = NetOutcome.response resp)
    (hs : resp.status ∉ p.retryOnStatuses)
    (hc : cancelBefore 0 = false) :
    classifyAttempt p.retryOnStatuses (net 0) = AttemptOutcome.success resp
    ∧ dispatch p (fun i => classifyAttempt p.retryOnStatuses (net i)) cancelBefore
        = (DispatchResult.ok resp, 1) := by
  have hcl : classifyAttempt p.retryOnStatuses (net 0) = AttemptOutcome.success resp := by
    rw [h0]
    simp [classifyAttempt, hs]
  refine ⟨hcl, ?_⟩
  unfold dispatch
  rw [dispatchFrom]
  simp [hc, hcl]

/-- Witness for C5: a 404 response with `retryOnStatuses = [429, 500, 502,
503, 504]` resolves as a success on the first attempt with zero retries. -/
theorem C5_nonretry_status_passthrough_witness :
    classifyAttempt [429, 500, 502, 503, 504] (NetOutcome.response ⟨404⟩)
        = AttemptOutcome.success ⟨404⟩
    ∧ dispatch ⟨2, 300, [429, 500, 502, 503, 504]⟩
        (fun i => classifyAttempt [429, 500, 502, 503, 504]
          ((fun _ => NetOutcome.response ⟨404⟩) i)) (fun _ => false)
        = (DispatchResult.ok ⟨404⟩, 1) :=
  C5_nonretry_status_passthrough ⟨2, 300, [429, 500, 502, 503, 504]⟩
    (fun _ => NetOutcome.response ⟨404⟩) (fun _ => false) ⟨404⟩ rfl (by decide) rfl

/-- The gate events of one dispatch are balanced: over the whole trace the
number of acquisitions equals the number of releases (so the held-slot count
ends at zero), whatever the attempt outcomes, the cancellation pattern and
the retry budget. -/
theorem dispatchTrace_balanced (outcomes : Nat → AttemptOutcome)
    (cancelBefore : Nat → Bool) :
    ∀ rem idx, heldAfter (dispatchTrace outcomes cancelBefore idx rem) = 0
      ∧ (dispatchTrace outcomes cancelBefore idx rem).count GateEv.acq
          = (dispatchTrace outcomes cancelBefore idx rem).count GateEv.rel := by
  intro rem
  induction rem with
  | zero =>
    intro idx
    rw [dispatchTrace]
    cases hc : cancelBefore idx
    · cases houtc : outcomes idx <;> exact ⟨rfl, rfl⟩
    · exact ⟨rfl, rfl⟩
  | succ rem' ih =>
    intro idx
    rw [dispatchTrace]
    cases hc : cancelBefore idx
    · cases houtc : outcomes idx with
      | success resp => exact ⟨rfl, rfl⟩
      | fatalFailure reason => exact ⟨rfl, rfl⟩
      | cancelledDuring => exact ⟨rfl, rfl⟩
      | unexpectedError reason => exact ⟨rfl, rfl⟩
      | retryableFailure reason =>
        have h := ih (idx + 1)
        rw [if_neg (by simp)]
        constructor
        · simp only [heldAfter, List.map_cons, List.sum_cons, evDelta] at h ⊢
          omega
        · have h2 := h.2
          simp [List.count_cons] at h2 ⊢
          omega
    · exact ⟨rfl, rfl⟩

/-- **C7** — No slot leak: whatever the attempt outcomes of a dispatch
(success, retryable exhaustion, fatal failure, cancellation before or during
an attempt, unexpected error) and whatever its retry budget, the gate events
of the dispatch are balanced — the number of slot acquisitions equals the
number of releases and the net held-slot count is zero once the call fully
settles, so the Concurrency Gate's `inUse` returns to its pre-call value and
a slot is never permanently held. -/
theorem C7_no_slot_leak (p : RetryPolicy) (outcomes : Nat → AttemptOutcome)
    (cancelBefore : Nat → Bool) :
    heldAfter (dispatchTrace outcomes cancelBefore 0 p.maxRetries) = 0
    ∧ (dispatchTrace outcomes cancelBefore 0 p.maxRetries).count GateEv.acq
        = (dispatchTrace outcomes cancelBefore 0 p.maxRetries).count GateEv.rel :=
  dispatchTrace_balanced outcomes cancelBefore p.maxRetries 0

/-! ## Theorems: backoff with jitter -/

/-- **C4** — Backoff formula: the pre-jitter delay after attempt index `i` is
`baseDelayMs * 2^i`, doubling with each retry and hence non-decreasing; with
`baseDelayMs = 300` the pre-jitter delays start at 300 ms and 600 ms.  The
scheduled delay is the pre-jitter delay scaled by the drawn jitter factor,
and for every factor in `[0.5, 1.5]` it lies between half and one-and-a-half
times the pre-jitter delay; at the mean factor 1 (the expectation of the
uniform draw on `[0.5, 1.5]`) it equals the pre-jitter delay, so the expected
delays are exactly 300 ms, 600 ms, …, non-decreasing. -/
theorem C4_backoff_formula (baseDelayMs i : Nat) (jitter : ℚ)
    (hlo : 1 / 2 ≤ jitter) (hhi : jitter ≤ 3 / 2) :
    preJitterDelay baseDelayMs (i + 1) = 2 * preJitterDelay baseDelayMs i
    ∧ preJitterDelay baseDelayMs i ≤ preJitterDelay baseDelayMs (i + 1)
    ∧ preJitterDelay 300 0 = 300
    ∧ preJitterDelay 300 1 = 600
    ∧ (preJitterDelay baseDelayMs i : ℚ) / 2 ≤ jitteredDelay baseDelayMs i jitter
    ∧ jitteredDelay baseDelayMs i jitter ≤ 3 / 2 * (preJitterDelay baseDelayMs i : ℚ)
    ∧ jitteredDelay baseDelayMs i 1 = preJitterDelay baseDelayMs i := by
  have hpos : (0 : ℚ) ≤ (preJitterDelay baseDelayMs i : ℚ) := Nat.cast_nonneg _
  refine ⟨?_, ?_, rfl, rfl, ?_, ?_, ?_⟩
  · unfold preJitterDelay
    rw [pow_succ]
    ring
  · unfold preJitterDelay
    exact Nat.mul_le_mul_left _ (Nat.pow_le_pow_right (by norm_num) (Nat.le_succ i))
  · unfold jitteredDelay
    nlinarith
  · unfold jitteredDelay
    nlinarith
  · unfold jitteredDelay
    ring

/-- Witness for C4 at `baseDelayMs = 300`, `i = 0` and the concrete jitter
factor 1/2. -/
theorem C4_backoff_formula_witness :
    preJitterDelay 300 1 = 2 * preJitterDelay 300 0
    ∧ (preJitterDelay 300 0 : ℚ) / 2 ≤ jitteredDelay 300 0 (1 / 2)
    ∧ jitteredDelay 300 0 (1 / 2) ≤ 3 / 2 * (preJitterDelay 300 0 : ℚ) :=
  ⟨(C4_backoff_formula 300 0 (1 / 2) (by norm_num) (by norm_num)).1,
   (C4_backoff_formula 300 0 (1 / 2) (by norm_num) (by norm_num)).2.2.2.2.1,
   (C4_backoff_formula 300 0 (1 / 2) (by norm_num) (by norm_num)).2.2.2.2.2.1⟩

/-! ## Theorems: Policy Store -/

/-- **C8** — Policy configuration validation and atomicity:
`configure(newPolicy)` fails with `InvalidPolicyError` exactly when one of
`maxRequestsPerInterval`, `intervalMs`, `maxConcurrency` is not a positive
integer; on failure the active policy is unchanged; on success the whole
tuple is swapped and `current()` returns the new snapshot. -/
theorem C8_policy_validation (active p : PolicyInput) :
    (configureRateLimit p = Except.error "InvalidPolicyError"
      ↔ ¬((0 < p.maxRequestsPerInterval ∧ p.maxRequestsPerInterval.den = 1)
           ∧ (0 < p.intervalMs ∧ p.intervalMs.den = 1)
           ∧ (0 < p.maxConcurrency ∧ p.maxConcurrency.den = 1)))
    ∧ (configureRateLimit p = Except.error "InvalidPolicyError" →
        activeAfterConfigure active p = active)
    ∧ (validPolicy p = true →
        configureRateLimit p = Except.ok p ∧ activeAfterConfigure active p = p) := by
  have hval : validPolicy p = true
      ↔ ((0 < p.maxRequestsPerInterval ∧ p.maxRequestsPerInterval.den = 1)
          ∧ (0 < p.intervalMs ∧ p.intervalMs.den = 1)
          ∧ (0 < p.maxConcurrency ∧ p.maxConcurrency.den = 1)) := by
    simp [validPolicy, isPositiveInteger, and_assoc]
  by_cases h : validPolicy p = true
  · refine ⟨?_, ?_, ?_⟩
    · rw [configureRateLimit, if_pos h]
      simp only [hval.mp h]
      simp
    · rw [configureRateLimit, if_pos h]
      intro hcontra
      cases hcontra
    · intro _
      rw [configureRateLimit, activeAfterConfigure, configureRateLimit, if_pos h]
      exact ⟨rfl, rfl⟩
  · refine ⟨?_, ?_, ?_⟩
    · rw [configureRateLimit, if_neg h]
      exact ⟨fun _ hc => h (hval.mpr hc), fun _ => rfl⟩
    · intro _
      rw [activeAfterConfigure, configureRateLimit, if_neg h]
    · intro hcontra
      exact absurd hcontra h

/-- Witness for C8: a zero `maxRequestsPerInterval` is rejected leaving the
active policy unchanged, and a valid tuple is swapped in whole. -/
theorem C8_policy_validation_witness :
    activeAfterConfigure ⟨1, 1, 1⟩ ⟨0, 1000, 4⟩ = (⟨1, 1, 1⟩ : PolicyInput)
    ∧ (configureRateLimit ⟨5, 1000, 4⟩ = Except.ok (⟨5, 1000, 4⟩ : PolicyInput)
        ∧ activeAfterConfigure ⟨1, 1, 1⟩ ⟨5, 1000, 4⟩ = (⟨5, 1000, 4⟩ : PolicyInput)) :=
  ⟨(C8_policy_validation ⟨1, 1, 1⟩ ⟨0, 1000, 4⟩).2.1 rfl,
   (C8_policy_validation ⟨1, 1, 1⟩ ⟨5, 1000, 4⟩).2.2 rfl⟩

/-! ## Theorems: callers in `src/client/get-info.ts` -/

/-- The status-naming error message is never equal to the invalid-store
message thrown on the Shopify check. -/
theorem httpErrorMsg_ne_invalidStore (s : Nat) :
    httpErrorMsg s ≠ "The provided URL does not appear to be a valid Shopify store." := by
  intro h
  have h2 : ("HTTP error! status: " ++ toString s).data
      = ("The provided URL does not appear to be a valid Shopify store." : String).data :=
    congrArg String.data h
  rw [String.data_append] at h2
  injection h2 with hhead _
  exact absurd hhead (by decide)

/-- **C9** — Caller-side status handling: `getSeoForUrl` and `getInfoForShop`
throw an error naming the HTTP status exactly when the response returned by
`rateLimitedFetch` has `ok = false`, and the error then names that response's
status; every non-ok response passed through by the dispatcher is converted
into a thrown error by these callers, and no other path of either function
produces a status-naming error. -/
theorem C9_caller_status_handling (parseSeoFromHtml : String → String → String)
    (argsUrl : String) (resp : FetchResponse) (walletId : Option String) :
    ((∃ s, getSeoForUrl parseSeoFromHtml argsUrl resp = Except.error (httpErrorMsg s))
        ↔ resp.ok = false)
    ∧ (resp.ok = false →
        getSeoForUrl parseSeoFromHtml argsUrl resp = Except.error (httpErrorMsg resp.status))
    ∧ ((∃ s, getInfoForShop resp walletId = Except.error (httpErrorMsg s)) ↔ resp.ok = false)
    ∧ (resp.ok = false →
        getInfoForShop resp walletId = Except.error (httpErrorMsg resp.status)) := by
  refine ⟨⟨?_, ?_⟩, ?_, ⟨?_, ?_⟩, ?_⟩
  · rintro ⟨s, hs⟩
    by_cases hok : resp.ok = false
    · exact hok
    · rw [getSeoForUrl, if_neg hok] at hs
      cases hs
  · intro hok
    exact ⟨resp.status, by rw [getSeoForUrl, if_pos hok]⟩
  · intro hok
    rw [getSeoForUrl, if_pos hok]
  · rintro ⟨s, hs⟩
    by_cases hok : resp.ok = false
    · exact hok
    · exfalso
      rw [getInfoForShop, if_neg hok] at hs
      by_cases hshop : (!isShopifyStoreHtml resp.body || optFalsy walletId) = true
      · rw [if_pos hshop] at hs
        injection hs with hmsg
        exact httpErrorMsg_ne_invalidStore s hmsg.symm
      · rw [if_neg hshop] at hs
        cases hs
  · intro hok
    exact ⟨resp.status, by rw [getInfoForShop, if_pos hok]⟩
  · intro hok
    rw [getInfoForShop, if_pos hok]

/-- Witness for C9: concrete non-ok responses make both callers throw the
status-naming error. -/
theorem C9_caller_status_handling_witness :
    getSeoForUrl (fun h _ => h) "https://example.com" ⟨false, 404, "", ""⟩
        = Except.error (httpErrorMsg 404)
    ∧ getInfoForShop ⟨false, 500, "", ""⟩ none = Except.error (httpErrorMsg 500) :=
  ⟨(C9_caller_status_handling (fun h _ => h) "https://example.com"
      ⟨false, 404, "", ""⟩ none).2.1 rfl,
   (C9_caller_status_handling (fun h _ => h) "https://example.com"
      ⟨false, 500, "", ""⟩ none).2.2.2 rfl⟩

/-! ## Theorems: Effect facade `withPolicy` -/


/-- `policyTimeoutMs` keeps a supplied timeout exactly when it is strictly
positive. -/
theorem policyTimeoutMs_eq_some_iff (options : Option ShopClientCallOptions) (t : ℚ) :
    policyTimeoutMs options = some t
      ↔ (options.bind fun o => o.timeoutMs) = some t ∧ 0 < t := by
  rw [policyTimeoutMs]
  cases hb : options.bind fun o => o.timeoutMs with
  | none => simp
  | some u =>
    show (if 0 < u then some u else none) = some t ↔ some u = some t ∧ 0 < t
    by_cases hu : 0 < u
    · rw [if_pos hu]
      constructor
      · intro h
        injection h with h1
        exact ⟨by rw [h1], by rw [← h1]; exact hu⟩
      · intro ⟨h1, _⟩
        exact h1
    · rw [if_neg hu]
      constructor
      · intro h
        cases h
      · intro ⟨h1, hpos⟩
        injection h1 with h1
        rw [h1] at hu
        exact absurd hpos hu

/-- A retried base effect only ever fails with an error the base effect
itself produced on some attempt. -/
theorem runRetry_base_err (oracle : Nat → RunRes) (dur : Nat → ℚ) (s : String) :
    ∀ n i, runRetry oracle dur Eff.base i n = RunRes.err s →
      ∃ j, oracle j = RunRes.err s := by
  intro n
  induction n with
  | zero =>
    intro i h
    exact ⟨i, h⟩
  | succ n ih =>
    intro i h
    rw [runRetry] at h
    simp only [runOnce] at h
    cases ho : oracle i with
    | ok v =>
      rw [ho] at h
      cases h
    | err e =>
      rw [ho] at h
      exact ih (i + 1) h

/-- **C10** — Timeout edge of the Effect facade policy: the effect built by
`withPolicy` contains a deadline (`Effect.timeoutFail`, whose error operation
is `operation ++ ".timeout"`) exactly when the supplied `timeoutMs` is a
number strictly greater than 0.  When `timeoutMs` is omitted, zero or
negative, the returned effect is exactly the un-timed base effect (wrapped in
the retry schedule when the retry budget is positive), and running it can
only fail with an error the base effect itself produced — a
`ShopClientOperationError` with operation suffix `".timeout"` can never be
produced. -/
theorem C10_timeout_edge (operation : String) (options : Option ShopClientCallOptions) :
    (hasTimeoutNode (withPolicy operation options) = true
      ↔ ∃ t, (options.bind fun o => o.timeoutMs) = some t ∧ 0 < t)
    ∧ ((∀ t, (options.bind fun o => o.timeoutMs) = some t → t ≤ 0) →
        (withPolicy operation options
          = if policyMaxRetries options = 0 then Eff.base
            else Eff.retry (policyBaseDelayMs options) (policyMaxRetries options) Eff.base)
        ∧ ∀ (oracle : Nat → RunRes) (dur : Nat → ℚ) (s : String),
            runEff oracle dur (withPolicy operation options) = RunRes.err s →
            ∃ i, oracle i = RunRes.err s) := by
  constructor
  · cases htm : policyTimeoutMs options with
    | some t =>
      constructor
      · intro _
        exact ⟨t, (policyTimeoutMs_eq_some_iff options t).mp htm⟩
      · intro _
        rw [withPolicy, htm]
        by_cases hr : policyMaxRetries options = 0
        · rw [if_pos hr]
          rfl
        · rw [if_neg hr]
          rfl
    | none =>
      constructor
      · intro habs
        exfalso
        rw [withPolicy, htm] at habs
        by_cases hr : policyMaxRetries options = 0
        · rw [if_pos hr] at habs
          cases habs
        · rw [if_neg hr] at habs
          cases habs
      · intro ⟨t, hsome, hpos⟩
        rw [(policyTimeoutMs_eq_some_iff options t).mpr ⟨hsome, hpos⟩] at htm
        cases htm
  · intro hle
    have htm : policyTimeoutMs options = none := by
      rw [policyTimeoutMs]
      cases hb : options.bind fun o => o.timeoutMs with
      | none => rfl
      | some u =>
        show (if 0 < u then some u else none) = none
        rw [if_neg (not_lt.mpr (hle u hb))]
    have hshape : withPolicy operation options
        = if policyMaxRetries options = 0 then Eff.base
          else Eff.retry (policyBaseDelayMs options) (policyMaxRetries options) Eff.base := by
      rw [withPolicy, htm]
    refine ⟨hshape, ?_⟩
    intro oracle dur s hrun
    rw [hshape] at hrun
    by_cases hr : policyMaxRetries options = 0
    · rw [if_pos hr] at hrun
      exact ⟨0, hrun⟩
    · rw [if_neg hr] at hrun
      rw [runEff] at hrun
      exact runRetry_base_err oracle dur s _ 0 hrun

/-- Witness for C10: a negative `timeoutMs` together with `maxRetries = 2`
yields the plain retried base effect with no deadline. -/
theorem C10_timeout_edge_witness :
    withPolicy "products.find" (some ⟨some (-5), some ⟨some 2, none⟩⟩)
      = if policyMaxRetries (some ⟨some (-5), some ⟨some 2, none⟩⟩) = 0 then Eff.base
        else Eff.retry (policyBaseDelayMs (some ⟨some (-5), some ⟨some 2, none⟩⟩))
               (policyMaxRetries (some ⟨some (-5), some ⟨some 2, none⟩⟩)) Eff.base :=
  ((C10_timeout_edge "products.find" (some ⟨some (-5), some ⟨some 2, none⟩⟩)).2
     (fun t h => by injection h with h2; rw [← h2]; norm_num)).1
